import Mathlib

/- Shallow embedding of the claude-terminal-bot sources (claude_bot.py,
terminal_bridge.py, session_manager.py). Python strings are modelled as
Lean String values operated on through their character lists; Python
dicts keyed by strings are modelled as functions into Option; calls into
the external tmux process are modelled by an explicit world state (the
set of live tmux sessions, the directories and files on disk) together
with a parameter saying whether tmux session creation succeeds. -/

/-! String helpers mirroring the Python primitives used by the sources. -/

/-- Python str.split() with no arguments: split on runs of whitespace and
drop empty pieces. The accumulator holds the current word reversed. -/
def splitWsAcc : List Char → List Char → List String
  | [], acc => if acc = [] then [] else [String.mk acc.reverse]
  | c :: cs, acc =>
    if c.isWhitespace then
      if acc = [] then splitWsAcc cs []
      else String.mk acc.reverse :: splitWsAcc cs []
    else splitWsAcc cs (c :: acc)

/-- Python str.split() with no arguments. -/
def pySplit (s : String) : List String := splitWsAcc s.data []

/-- Python substring containment: the in operator on a pair of strings. -/
def substrB (needle hay : String) : Bool :=
  hay.data.tails.any (fun t => needle.data.isPrefixOf t)

/-- Python str.lower (the sources only lower ASCII text). -/
def pyLower (s : String) : String := String.mk (s.data.map Char.toLower)

/-- Python str.strip() with no arguments: drop whitespace on both ends. -/
def pyStrip (s : String) : String :=
  String.mk (((s.data.dropWhile Char.isWhitespace).reverse.dropWhile
    Char.isWhitespace).reverse)

/-- Python newline join of a list of lines. -/
def joinNl (lines : List String) : String :=
  String.mk (List.intercalate ['\n'] (lines.map String.data))

/-- Python single-character containment: c in s for a character c. -/
def containsChar (s : String) (c : Char) : Bool := s.data.contains c

/-- Python s.endswith(t) for a one-character suffix t. -/
def lastCharIs (s : String) (c : Char) : Bool := s.data.getLast? == some c

/-- The apostrophe character, written via its code point. -/
def squote : String := String.mk [Char.ofNat 39]

/-! Security gate: TerminalBridge.is_command_allowed, terminal_bridge.py
lines 266-284. -/

/-- The security section of the configuration: the blocked_commands and
allowed_commands lists (a missing key defaults to the empty list). The
section is passed to is_command_allowed wrapped in Option; none models a
missing or empty dict, which is falsy in Python. -/
structure SecurityConfig where
  blocked_commands : List String
  allowed_commands : List String
deriving Repr, DecidableEq

/-- TerminalBridge.is_command_allowed (terminal_bridge.py lines 266-284):
with no security section every command passes; otherwise any blocked
substring rejects; otherwise a nonempty allow list requires the first
whitespace token of the command (the empty string when the command has
no token) to be a member of the list. -/
def is_command_allowed (securityConfig : Option SecurityConfig)
    (command : String) : Bool :=
  match securityConfig with
  | none => true
  | some cfg =>
    if cfg.blocked_commands.any (fun b => substrB b command) then false
    else if cfg.allowed_commands.isEmpty then true
    else decide ((pySplit command).headD "" ∈ cfg.allowed_commands)

/-! Output scraper: the shell-mode scraping pipeline of
TerminalBridge.execute_command, terminal_bridge.py lines 50-90. -/

/-- Main scan of execute_command (terminal_bridge.py lines 57-73): strip
each line, skip blanks, mark the line exactly equal to the echoed
command, skip prompt-looking lines (containing a dollar or greater-than
sign) before the command is found, and collect the lines after it. -/
def scanLines (command : String) : List String → Bool → List String
  | [], _ => []
  | l :: rest, command_found =>
    let t := pyStrip l
    if t = "" then scanLines command rest command_found
    else if t = command then scanLines command rest true
    else if !command_found && (containsChar t '$' || containsChar t '>') then
      scanLines command rest command_found
    else if command_found then t :: scanLines command rest command_found
    else scanLines command rest command_found

/-- Fallback scan of execute_command (terminal_bridge.py lines 76-84),
applied to the reversed buffer: collect up to three stripped lines that
are nonempty, differ from the command, and do not end in a dollar sign. -/
def lastMeaningful (command : String) : List String → List String → List String
  | [], acc => acc
  | l :: rest, acc =>
    let t := pyStrip l
    if t != "" && t != command && !(lastCharIs t '$') then
      let acc2 := acc ++ [t]
      if acc2.length ≥ 3 then acc2 else lastMeaningful command rest acc2
    else lastMeaningful command rest acc

/-- Length cap of execute_command (terminal_bridge.py lines 86-88): more
than 15 lines collapse to the first 10, one marker line, and the last 3. -/
def limit_output (output_lines : List String) : List String :=
  if output_lines.length > 15 then
    output_lines.take 10 ++ ["... (output truncated) ..."]
      ++ output_lines.drop (output_lines.length - 3)
  else output_lines

/-- Shell-mode scraping of TerminalBridge.execute_command
(terminal_bridge.py lines 50-90), with the captured buffer given as its
list of lines: primary scan, fallback on an empty result, length cap,
newline join, and the fixed no-output message when nothing is left. -/
def scrape_output (command : String) (lines : List String) : String :=
  let found := scanLines command lines false
  let output_lines :=
    if found = [] then (lastMeaningful command lines.reverse []).reverse
    else found
  let capped := limit_output output_lines
  if capped = [] then
    "Command " ++ squote ++ command ++ squote ++ " executed (no output)"
  else joinNl capped

/-! Command router: ClaudeBot.handle_command, claude_bot.py lines 153-215. -/

/-- The branch selected by the if/elif chain of handle_command. -/
inductive Route where
  | newSession
  | listSessions
  | switchSession
  | claudeStart
  | workingDir
  | helpCmd
  | unknown (cmd : String)
deriving Repr, DecidableEq

/-- Dispatch skeleton of ClaudeBot.handle_command (claude_bot.py lines
153-215): the token is the first whitespace word after the leading slash
(empty when there is none); the if/elif chain recognizes new-session,
list-sessions, switch-session, claude-start, working-dir and help, and
every other token falls through to the unknown-command reply naming the
token. -/
def handle_command_route (command : String) : Route :=
  let parts := pySplit (String.mk (command.data.drop 1))
  let cmd := parts.headD ""
  if cmd = "new-session" then .newSession
  else if cmd = "list-sessions" then .listSessions
  else if cmd = "switch-session" then .switchSession
  else if cmd = "claude-start" then .claudeStart
  else if cmd = "working-dir" then .workingDir
  else if cmd = "help" then .helpCmd
  else .unknown cmd

/-- The fixed unknown-command reply of handle_command (claude_bot.py
line 211). -/
def unknown_command_reply (cmd : String) : String :=
  "Unknown command: " ++ cmd ++ ". Use /help for available commands."

/-! Natural-language aliases: ClaudeBot.is_natural_command and
ClaudeBot.convert_natural_command, claude_bot.py lines 259-319. The two
regular expressions of convert_natural_command are modelled by the
explicit scanning functions below. -/

/-- The fixed phrase table of is_natural_command (claude_bot.py lines
263-270). -/
def natural_commands : List String :=
  ["start claude", "claude start", "start claude code",
   "stop claude", "claude stop", "stop claude code",
   "list sessions", "show sessions", "list all sessions",
   "new session", "create session", "create new session",
   "switch session", "change session", "switch to session",
   "help", "show help", "bot help"]

/-- ClaudeBot.is_natural_command (claude_bot.py lines 259-272): true when
any phrase of the table occurs in the lowered content. -/
def is_natural_command (content : String) : Bool :=
  natural_commands.any (fun cmd => substrB cmd (pyLower content))

/-- One anchored attempt of the regular expression that extracts the
directory after cd: the literal cd, at least one whitespace character,
then the greedy capture of at least one nonspace character. -/
def cdMatchAt : List Char → Option String
  | 'c' :: 'd' :: rest =>
    if rest.takeWhile Char.isWhitespace = [] then none
    else
      let arg := (rest.dropWhile Char.isWhitespace).takeWhile
        (fun c => !c.isWhitespace)
      if arg = [] then none else some (String.mk arg)
  | _ => none

/-- Leftmost match of the cd-argument pattern, scanning across the text,
as Python re.search does (claude_bot.py line 289). -/
def findCdArg : List Char → Option String
  | [] => none
  | c :: cs =>
    match cdMatchAt (c :: cs) with
    | some a => some a
    | none => findCdArg cs

/-- Tail of the session-name pattern (claude_bot.py line 300) after the
literal alternation: an optional group of at least one whitespace
character, an optional literal called followed by whitespace, an optional
quote character, then the greedy capture of at least one character that
is not a quote character. Returns none when the optional tail does not
match, in which case group 1 of the Python match object is None. -/
def nameTail (rest : List Char) : Option String :=
  if rest.takeWhile Char.isWhitespace = [] then none
  else
    let t1 := rest.dropWhile Char.isWhitespace
    let t2 :=
      if "called".data.isPrefixOf t1
          && !((t1.drop 6).takeWhile Char.isWhitespace = []) then
        (t1.drop 6).dropWhile Char.isWhitespace
      else t1
    let t3 :=
      match t2 with
      | c :: r => if c == '"' || c == Char.ofNat 39 then r else t2
      | [] => t2
    let cap := t3.takeWhile (fun c => !(c == '"' || c == Char.ofNat 39))
    if cap = [] then none else some (String.mk cap)

/-- Leftmost match of the session-name pattern (claude_bot.py line 300):
the alternation of the literals new session and create session, then the
optional name tail; the scan stops at the first position where the
literal part matches, because the tail is optional and the overall match
therefore always succeeds there. -/
def extractSessionName : List Char → Option String
  | [] => none
  | c :: cs =>
    if "new session".data.isPrefixOf (c :: cs) then
      nameTail ((c :: cs).drop 11)
    else if "create session".data.isPrefixOf (c :: cs) then
      nameTail ((c :: cs).drop 14)
    else extractSessionName cs

/-- A word character of the regular expression word class (ASCII letters,
digits and the underscore). -/
def isWordChar (c : Char) : Bool := c.isAlphanum || c == '_'

/-- One anchored attempt of the switch-session pattern (claude_bot.py
line 308): the literal session, at least one whitespace character, then
the greedy capture of at least one word character. -/
def sessionArgAt (cs : List Char) : Option String :=
  if "session".data.isPrefixOf cs then
    let rest := cs.drop 7
    if rest.takeWhile Char.isWhitespace = [] then none
    else
      let arg := (rest.dropWhile Char.isWhitespace).takeWhile isWordChar
      if arg = [] then none else some (String.mk arg)
  else none

/-- Leftmost match of the switch-session pattern, scanning across the
text. -/
def findSessionArg : List Char → Option String
  | [] => none
  | c :: cs =>
    match sessionArgAt (c :: cs) with
    | some a => some a
    | none => findSessionArg cs

/-- ClaudeBot.convert_natural_command (claude_bot.py lines 274-319). -/
def convert_natural_command (content : String) : String :=
  let content_lower := pyLower content
  if substrB "start claude" content_lower
      || substrB "claude start" content_lower then
    "/claude-start"
  else if substrB "stop claude" content_lower
      || substrB "claude stop" content_lower then
    "/claude-stop"
  else if substrB "change directory" content_lower
      || substrB "cd " content then
    if substrB "cd " content then
      match findCdArg content.data with
      | some arg => "/working-dir " ++ arg
      | none => content
    else content
  else if substrB "list sessions" content_lower
      || substrB "show sessions" content_lower then
    "/list-sessions"
  else if substrB "new session" content_lower
      || substrB "create session" content_lower then
    match extractSessionName content_lower.data with
    | some nm => "/new-session \"" ++ pyStrip nm ++ "\""
    | none => "/new-session"
  else if substrB "switch" content_lower && substrB "session" content_lower then
    match findSessionArg content_lower.data with
    | some arg => "/switch-session " ++ arg
    | none => "/list-sessions"
  else if substrB "help" content_lower then "/help"
  else "/help"

/-! Session registry: session_manager.py. A Session models the
session_data dict created at claude_bot startup or by create_session;
dicts keyed by id or topic are functions into Option. -/

/-- One session record (session_manager.py lines 38-49). The status field
models the optional status key added by sleep_session. -/
structure Session where
  id : String
  name : String
  working_dir : String
  tmux_session : String
  claude_code_active : Bool
  created_at : String
  last_active : String
  context_files : List String
  environment : List (String × String)
  topic : Option String
  status : Option String := none
deriving Repr, DecidableEq

/-- Pointwise update of a string-keyed map. -/
def updf {α : Type} (f : String → Option α) (k : String) (v : Option α) :
    String → Option α :=
  fun x => if x = k then v else f x

/-- In-memory state of a SessionManager: the sessions dict, the topic
index, the global fallback id, and the on-disk session.json mirror
written by save_session. -/
structure SMState where
  sessions : String → Option Session
  topic_sessions : String → Option String
  global_active_session : Option String
  disk : String → Option Session

/-- SessionManager.save_session (session_manager.py lines 245-254): write
the in-memory record to its session.json; a no-op for an unknown id. -/
def save_session (st : SMState) (session_id : String) : SMState :=
  match st.sessions session_id with
  | none => st
  | some s => { st with disk := updf st.disk session_id (some s) }

/-- SessionManager.switch_session (session_manager.py lines 83-92): an
unknown id reports failure; otherwise the topic index and the global
fallback move to the id, last_active is refreshed (now stands for the
current datetime) and the record is persisted. -/
def switch_session (st : SMState) (session_id topic now : String) :
    SMState × Bool :=
  match st.sessions session_id with
  | none => (st, false)
  | some s =>
    let s2 := { s with last_active := now }
    let st2 := { st with
      topic_sessions := updf st.topic_sessions topic (some session_id),
      global_active_session := some session_id,
      sessions := updf st.sessions session_id (some s2) }
    (save_session st2 session_id, true)

/-- SessionManager.get_current_session (session_manager.py lines 94-104):
the topic-indexed session when its id is truthy and registered, else the
global fallback when truthy and registered, else none. -/
def get_current_session (st : SMState) (topic : String) : Option Session :=
  let viaTopic :=
    match st.topic_sessions topic with
    | some sid => if sid ≠ "" then st.sessions sid else none
    | none => none
  match viaTopic with
  | some s => some s
  | none =>
    match st.global_active_session with
    | some gid => if gid ≠ "" then st.sessions gid else none
    | none => none

/-- SessionManager.kill_session (session_manager.py lines 120-142). The
alive list carries the names of the live tmux sessions; the tmux
kill-session call removes the name if present and a failure on an
already-dead handle is swallowed. An unknown id reports failure and
changes nothing; otherwise the record is deleted and the topic mapping is
deleted when it still points at this id. -/
def kill_session (st : SMState) (alive : List String) (session_id : String) :
    SMState × List String × Bool :=
  match st.sessions session_id with
  | none => (st, alive, false)
  | some s =>
    let alive2 := alive.filter (fun n => n ≠ s.tmux_session)
    let st2 := { st with sessions := updf st.sessions session_id none }
    let st3 :=
      match s.topic with
      | some t =>
        if t ≠ "" ∧ st2.topic_sessions t = some session_id then
          { st2 with topic_sessions := updf st2.topic_sessions t none }
        else st2
      | none => st2
    (st3, alive2, true)

/-! Session creation: SessionManager.create_session, session_manager.py
lines 27-81, together with generate_session_id (lines 179-186). The
filesystem is modelled by the lists of directory and file paths under the
registry base directory; tmux sessions are pairs of a name and the start
directory. -/

/-- Zero padding of a session number to width three, as the Python format
specifier 03d does for the ids in range 1 to 999. -/
def pad3 (n : Nat) : String :=
  (if n < 10 then "00" else if n < 100 then "0" else "") ++ toString n

/-- SessionManager.generate_session_id (session_manager.py lines
179-186): the first id of 001 to 999 not present in the registry; none
models the too-many-sessions exception. -/
def generate_session_id (sessions : String → Option Session) :
    Option String :=
  ((List.range 999).map (fun i => pad3 (i + 1))).find?
    (fun sid => (sessions sid).isNone)

/-- Insert a path into a path list when absent (mkdir with exist_ok, or
rewriting a file). -/
def listInsert (l : List String) (x : String) : List String :=
  if x ∈ l then l else x :: l

/-- True when the directory p has a child among the known directories or
files, that is a path strictly extending p as a path segment. Python
Path.rmdir raises OSError on such a directory. -/
def dirNonEmpty (dirs files : List String) (p : String) : Bool :=
  dirs.any (fun q => (p ++ "/").data.isPrefixOf q.data)
    || files.any (fun q => (p ++ "/").data.isPrefixOf q.data)

/-- Filesystem-and-registry state used by create_session. -/
structure FState where
  sessions : String → Option Session
  topic_sessions : String → Option String
  dirs : List String
  files : List String
  tmux : List (String × String)

/-- Outcome of create_session. -/
inductive CreateOutcome where
  | ok (session_id : String)
  | errTooManySessions
  | errDirNotEmpty (path : String)
  | errFailedTmux
deriving Repr, DecidableEq

/-- SessionManager.create_session (session_manager.py lines 27-81). The
argument tmuxOk says whether the tmux new-session call succeeds; now
stands for the current datetime. On tmux failure the except branch
evaluates session_dir.rmdir() when the directory exists: when the
directory is nonempty the rmdir call raises OSError, which propagates
without removing anything and without reaching the line that raises the
failed-to-create exception (errDirNotEmpty); only an empty directory is
removed before that exception is raised (errFailedTmux). -/
def create_session (base_dir tmuxPref now : String) (tmuxOk : Bool)
    (st : FState) (name : String) (topic : Option String) :
    FState × CreateOutcome :=
  match generate_session_id st.sessions with
  | none => (st, .errTooManySessions)
  | some session_id =>
    let session_dir := base_dir ++ "/" ++ session_id
    let st1 := { st with dirs := listInsert st.dirs session_dir }
    let st2 := { st1 with
      dirs := listInsert st1.dirs (session_dir ++ "/context") }
    let session_data : Session := {
      id := session_id
      name := name
      working_dir := session_dir
      tmux_session := tmuxPref ++ session_id
      claude_code_active := false
      created_at := now
      last_active := now
      context_files := []
      environment := []
      topic := topic
      status := none }
    let st3 := { st2 with
      files := listInsert st2.files (session_dir ++ "/session.json") }
    let tmux_name := session_data.tmux_session
    let st4 := { st3 with tmux := st3.tmux.filter (fun p => p.1 ≠ tmux_name) }
    if tmuxOk then
      let st5 := { st4 with tmux := (tmux_name, session_dir) :: st4.tmux }
      let st6 := { st5 with
        sessions := updf st5.sessions session_id (some session_data) }
      let st7 :=
        match topic with
        | some t =>
          if t ≠ "" then
            { st6 with topic_sessions := updf st6.topic_sessions t (some session_id) }
          else st6
        | none => st6
      (st7, .ok session_id)
    else
      if session_dir ∈ st4.dirs then
        if dirNonEmpty st4.dirs st4.files session_dir then
          (st4, .errDirNotEmpty session_dir)
        else
          ({ st4 with dirs := st4.dirs.filter (fun q => q ≠ session_dir) },
            .errFailedTmux)
      else (st4, .errFailedTmux)

/-! Registry load: SessionManager.load_sessions, session_manager.py lines
188-230, and recreate_tmux_session, lines 232-243. -/

/-- One entry of the base directory as seen by load_sessions: not a
directory, a directory without session.json, a file that fails to parse,
a parsed dict without the id field, or a complete record. All but the
last are skipped. -/
inductive DirEntry where
  | notDir
  | noSessionFile
  | invalidJson
  | missingId
  | record (s : Session)
deriving Repr, DecidableEq

/-- In-memory state built by load_sessions, together with the live tmux
sessions of the world. -/
structure LoadState where
  sessions : String → Option Session
  topic_sessions : String → Option String
  global_active_session : Option String
  tmux : List (String × String)

/-- SessionManager.recreate_tmux_session (session_manager.py lines
232-243): attempt tmux new-session with the recorded name and working
directory; createOk says whether the call succeeds, and a failure is only
printed, leaving the world unchanged. -/
def recreate_tmux_session (createOk : String → Bool)
    (tmux : List (String × String)) (s : Session) : List (String × String) :=
  if createOk s.tmux_session then (s.tmux_session, s.working_dir) :: tmux
  else tmux

/-- One iteration of the load_sessions loop (session_manager.py lines
190-230) over a directory entry: a complete record is registered, its
tmux session is probed and recreated when dead, its topic mapping is
restored when truthy, and the first record becomes the global fallback
when none is set. -/
def load_step (createOk : String → Bool) (st : LoadState) (e : DirEntry) :
    LoadState :=
  match e with
  | .record s =>
    let st1 := { st with sessions := updf st.sessions s.id (some s) }
    let st2 :=
      if s.tmux_session ∈ st1.tmux.map Prod.fst then st1
      else { st1 with tmux := recreate_tmux_session createOk st1.tmux s }
    let st3 :=
      match s.topic with
      | some t =>
        if t ≠ "" then
          { st2 with topic_sessions := updf st2.topic_sessions t (some s.id) }
        else st2
      | none => st2
    if st3.global_active_session.getD "" = "" then
      { st3 with global_active_session := some s.id }
    else st3
  | _ => st

/-- SessionManager.load_sessions (session_manager.py lines 188-230) run
over the entries of the base directory, starting from the fresh in-memory
state of the constructor and the live tmux sessions tmux0 of the world. -/
def load_sessions (createOk : String → Bool) (tmux0 : List (String × String))
    (entries : List DirEntry) : LoadState :=
  entries.foldl (load_step createOk)
    { sessions := fun _ => none
      topic_sessions := fun _ => none
      global_active_session := none
      tmux := tmux0 }

/-! Concrete states used by the witnesses and counterexamples. -/

/-- A concrete session record. -/
def demoSession : Session := {
  id := "001"
  name := "demo"
  working_dir := "base/001"
  tmux_session := "claude_001"
  claude_code_active := false
  created_at := "t0"
  last_active := "t0"
  context_files := []
  environment := []
  topic := some "general"
  status := none }

/-- A second concrete session record. -/
def demoSession2 : Session := {
  id := "002"
  name := "demo2"
  working_dir := "base/002"
  tmux_session := "claude_002"
  claude_code_active := false
  created_at := "t0"
  last_active := "t0"
  context_files := []
  environment := []
  topic := some "general"
  status := none }

/-- A registry holding demoSession and demoSession2. -/
def demoState : SMState := {
  sessions := fun x =>
    if x = "001" then some demoSession
    else if x = "002" then some demoSession2
    else none
  topic_sessions := fun t => if t = "general" then some "001" else none
  global_active_session := some "001"
  disk := fun _ => none }

/-- An empty registry over the base directory. -/
def emptyFState : FState := {
  sessions := fun _ => none
  topic_sessions := fun _ => none
  dirs := ["base"]
  files := []
  tmux := [] }

/-- Sixteen concrete output lines, one more than the cap. -/
def sixteenLines : List String :=
  ["a01", "a02", "a03", "a04", "a05", "a06", "a07", "a08",
   "a09", "a10", "a11", "a12", "a13", "a14", "a15", "a16"]

/-! Theorems. -/

/-- Claim C1, counterexample: on the captured buffer of the spec scenario
the shell-mode scrape of echo hi does not return hi. No buffer line is
exactly equal to the echoed command, because the prompt precedes the
command on its line, so the exact-match scan collects nothing. -/
theorem scrape_echo_hi_not_hi :
    scrape_output "echo hi" ["user@host:~$ echo hi", "hi", "user@host:~$"]
      ≠ "hi" := by decide

/-- Claim C1, amended: on that buffer the scrape returns the prompt line
carrying the command followed by hi. The exact-match scan finds no line
equal to the command, so the fallback keeps, in order, the last stripped
lines that are nonempty, differ from the command and do not end in a
dollar sign: the prompt-plus-command line and the output line. -/
theorem scrape_echo_hi_fallback :
    scrape_output "echo hi" ["user@host:~$ echo hi", "hi", "user@host:~$"]
      = "user@host:~$ echo hi\nhi" := by decide

/-- Claim C3, code bug: the if/elif chain of handle_command recognizes
only new-session, list-sessions, switch-session, claude-start,
working-dir and help; the tokens claude-stop and claude-status fall
through to the unknown-command reply, although the help text of the bot
advertises both and convert_natural_command itself rewrites the phrase
stop claude to the slash command claude-stop. -/
theorem handle_command_missing_claude_stop :
    handle_command_route "/claude-stop" = .unknown "claude-stop"
    ∧ handle_command_route "/claude-status" = .unknown "claude-status"
    ∧ handle_command_route "/new-session" = .newSession
    ∧ handle_command_route "/list-sessions" = .listSessions
    ∧ handle_command_route "/switch-session" = .switchSession
    ∧ handle_command_route "/claude-start" = .claudeStart
    ∧ handle_command_route "/working-dir" = .workingDir
    ∧ handle_command_route "/help" = .helpCmd
    ∧ convert_natural_command "stop claude" = "/claude-stop"
    ∧ handle_command_route (convert_natural_command "stop claude")
        = .unknown "claude-stop"
    ∧ unknown_command_reply "claude-stop"
        = "Unknown command: claude-stop. Use /help for available commands." := by
  decide

/-- Claim C6, code bug: the phrase table of is_natural_command contains
no phrase occurring in the input cd /tmp, so that input is never routed
through convert_natural_command and runs as a raw terminal command, even
though convert_natural_command has a dedicated branch rewriting it to the
working-dir command. The session-creation half of the claim does hold:
create session called demo is recognized and rewritten. -/
theorem natural_alias_cd_gap :
    is_natural_command "create session called demo" = true
    ∧ convert_natural_command "create session called demo"
        = "/new-session \"demo\""
    ∧ is_natural_command "cd /tmp" = false
    ∧ convert_natural_command "cd /tmp" = "/working-dir /tmp" := by decide

set_option maxRecDepth 8192 in
/-- Claim C5, code bug: when tmux session creation fails inside
create_session, the rollback line calls rmdir on the session directory,
but that directory still contains the context subdirectory and the
session.json file, so rmdir raises OSError: the directory and its
contents survive, and the intended failed-to-create exception is never
raised. No session is registered in memory, as the claim also states. -/
theorem create_session_rollback_bug :
    (create_session "base" "claude_" "t0" false emptyFState "demo" none).2
      = .errDirNotEmpty "base/001"
    ∧ "base/001" ∈
        (create_session "base" "claude_" "t0" false emptyFState "demo" none).1.dirs
    ∧ "base/001/context" ∈
        (create_session "base" "claude_" "t0" false emptyFState "demo" none).1.dirs
    ∧ "base/001/session.json" ∈
        (create_session "base" "claude_" "t0" false emptyFState "demo" none).1.files
    ∧ (create_session "base" "claude_" "t0" false emptyFState "demo"
        none).1.sessions "001" = none := by decide

/-- Claim C2: the deny list dominates, the allow list gates on the first
whitespace token, and an empty security configuration is unrestricted.
For every command and configuration: with no security section the check
passes; a blocked substring occurring in the command rejects it whatever
the allow list holds; with no blocked match and a nonempty allow list the
check passes exactly when the first whitespace token of the command is in
the allow list; with no blocked match and no allow list it passes. -/
theorem is_command_allowed_spec (blocked allowed : List String)
    (command : String) :
    is_command_allowed none command = true
    ∧ (∀ b ∈ blocked, substrB b command = true →
        is_command_allowed (some ⟨blocked, allowed⟩) command = false)
    ∧ ((∀ b ∈ blocked, substrB b command = false) → allowed ≠ [] →
        (is_command_allowed (some ⟨blocked, allowed⟩) command = true ↔
          (pySplit command).headD "" ∈ allowed))
    ∧ ((∀ b ∈ blocked, substrB b command = false) → allowed = [] →
        is_command_allowed (some ⟨blocked, allowed⟩) command = true) := by
  have hany : (∀ b ∈ blocked, substrB b command = false) →
      blocked.any (fun x => substrB x command) = false := by
    intro hno
    by_contra h
    rw [Bool.not_eq_false, List.any_eq_true] at h
    obtain ⟨b, hb, hsub⟩ := h
    rw [hno b hb] at hsub
    cases hsub
  refine ⟨rfl, ?_, ?_, ?_⟩
  · intro b hb hsub
    have h : blocked.any (fun x => substrB x command) = true :=
      List.any_eq_true.mpr ⟨b, hb, hsub⟩
    simp [is_command_allowed, h]
  · intro hno hne
    have hie : allowed.isEmpty = false := by
      cases allowed with
      | nil => exact absurd rfl hne
      | cons a l => rfl
    simp [is_command_allowed, hany hno, hie]
  · intro hno hemp
    subst hemp
    simp [is_command_allowed, hany hno]

/-- Claim C2, witness: the four cases of the theorem at concrete inputs,
including the spec scenario where the deny list entry rm -rf rejects
rm -rf /tmp although the allow list would accept it. -/
theorem is_command_allowed_spec_witness :
    is_command_allowed none "anything goes" = true
    ∧ is_command_allowed (some ⟨["rm -rf"], ["rm"]⟩) "rm -rf /tmp" = false
    ∧ (is_command_allowed (some ⟨["sudo"], ["ls"]⟩) "ls -la" = true ↔
        (pySplit "ls -la").headD "" ∈ ["ls"])
    ∧ is_command_allowed (some ⟨["sudo"], []⟩) "ls -la" = true :=
  ⟨(is_command_allowed_spec [] [] "anything goes").1,
    (is_command_allowed_spec ["rm -rf"] ["rm"] "rm -rf /tmp").2.1 "rm -rf"
      (by decide) (by decide),
    (is_command_allowed_spec ["sudo"] ["ls"] "ls -la").2.2.1
      (by decide) (by decide),
    (is_command_allowed_spec ["sudo"] [] "ls -la").2.2.2 (by decide) rfl⟩

/-- Helper: splitting an all-whitespace character list yields no token. -/
theorem splitWsAcc_all_ws (cs : List Char)
    (h : ∀ c ∈ cs, c.isWhitespace) : splitWsAcc cs [] = [] := by
  induction cs with
  | nil => rfl
  | cons c cs ih =>
    have hc : c.isWhitespace = true := h c (by simp)
    simp only [splitWsAcc, hc, if_true, if_pos rfl]
    exact ih (fun x hx => h x (by simp [hx]))

/-- Claim C10, counterexample: when the allow list itself contains the
empty string, a whitespace-only command is accepted, not rejected: the
guarded first-token extraction produces the empty string, which is then
found in the allow list. -/
theorem whitespace_command_counterexample :
    (∀ c ∈ (" " : String).data, c.isWhitespace)
    ∧ ([""] : List String) ≠ []
    ∧ ¬ is_command_allowed (some ⟨[], [""]⟩) " " = false := by decide

/-- Claim C10, amended: a command consisting only of whitespace (the
empty string included) is rejected, without failing, whenever a nonempty
allow list is configured, no deny entry matches, and the empty string is
not itself an allow-list entry: the guarded extraction yields the empty
string as the first token, and that token is not in the list. -/
theorem whitespace_command_rejected (blocked allowed : List String)
    (command : String) (hws : ∀ c ∈ command.data, c.isWhitespace)
    (hne : allowed ≠ []) (hnotriv : "" ∉ allowed)
    (hblock : ∀ b ∈ blocked, substrB b command = false) :
    is_command_allowed (some ⟨blocked, allowed⟩) command = false := by
  have hsplit : pySplit command = [] := splitWsAcc_all_ws command.data hws
  have hany : blocked.any (fun x => substrB x command) = false := by
    by_contra h
    rw [Bool.not_eq_false, List.any_eq_true] at h
    obtain ⟨b, hb, hsub⟩ := h
    rw [hblock b hb] at hsub
    cases hsub
  have hie : allowed.isEmpty = false := by
    cases allowed with
    | nil => exact absurd rfl hne
    | cons a l => rfl
  simp [is_command_allowed, hany, hie, hsplit, hnotriv]

/-- Claim C10, witness: the empty command against a configuration with a
deny list and a nonconflicting allow list. -/
theorem whitespace_command_rejected_witness :
    is_command_allowed (some ⟨["rm"], ["ls"]⟩) "" = false :=
  whitespace_command_rejected ["rm"] ["ls"] "" (by decide) (by decide)
    (by decide) (by decide)

/-- Claim C8: a scraped output of more than 15 lines is capped to 14
lines made of the first 10 lines, one truncation marker, and the last 3
lines; 15 or fewer lines pass through unchanged. -/
theorem limit_output_spec (l : List String) :
    (15 < l.length →
      (limit_output l).length = 14
      ∧ (limit_output l).take 10 = l.take 10
      ∧ (limit_output l)[10]? = some "... (output truncated) ..."
      ∧ (limit_output l).drop 11 = l.drop (l.length - 3)
      ∧ (l.drop (l.length - 3)).length = 3)
    ∧ (l.length ≤ 15 → limit_output l = l) := by
  constructor
  · intro h
    have h10 : (l.take 10).length = 10 := by
      rw [List.length_take]; omega
    have hdrop : (l.drop (l.length - 3)).length = 3 := by
      rw [List.length_drop]; omega
    have hlim : limit_output l
        = l.take 10 ++ ["... (output truncated) ..."]
          ++ l.drop (l.length - 3) := by
      unfold limit_output
      rw [if_pos h]
    refine ⟨?_, ?_, ?_, ?_, hdrop⟩
    · rw [hlim]
      simp [h10, hdrop]
    · rw [hlim, List.append_assoc,
        List.take_append_of_le_length (le_of_eq h10.symm), List.take_take]
      norm_num
    · rw [hlim, List.append_assoc,
        List.getElem?_append_right (le_of_eq h10), h10]
      simp
    · rw [hlim]
      exact List.drop_left' (by simp [h10])
  · intro h
    unfold limit_output
    rw [if_neg (by omega)]

/-- Claim C8, witness: the theorem applied to a concrete 16-line buffer
and to a concrete one-line buffer. -/
theorem limit_output_spec_witness :
    ((limit_output sixteenLines).length = 14
      ∧ (limit_output sixteenLines).take 10 = sixteenLines.take 10
      ∧ (limit_output sixteenLines)[10]? = some "... (output truncated) ..."
      ∧ (limit_output sixteenLines).drop 11
          = sixteenLines.drop (sixteenLines.length - 3)
      ∧ (sixteenLines.drop (sixteenLines.length - 3)).length = 3)
    ∧ limit_output ["ok"] = ["ok"] :=
  ⟨(limit_output_spec sixteenLines).1 (by decide),
    (limit_output_spec ["ok"]).2 (by decide)⟩

/-- Helper: the effect of one successful switch_session call on a
registered id, written out as a record. -/
theorem switch_session_eq (st : SMState) (id topic now : String)
    (s : Session) (hs : st.sessions id = some s) :
    switch_session st id topic now = ({ st with
      sessions := updf st.sessions id (some { s with last_active := now })
      topic_sessions := updf st.topic_sessions topic (some id)
      global_active_session := some id
      disk := updf st.disk id (some { s with last_active := now }) }, true) := by
  unfold switch_session save_session
  rw [hs]
  simp [updf]

/-- Claim C7: switching a topic twice keeps only the last session: after
switching topic t to a registered id A and then to a registered id B, the
topic index maps t to B, the global fallback is B, B is still registered,
and get_current_session on t returns the registered record of B. The
hypothesis that B is not the empty string mirrors the Python truthiness
test on ids; real ids are zero-padded numbers. -/
theorem switch_session_last_wins (st : SMState) (t A B now1 now2 : String)
    (sA sB : Session) (hA : st.sessions A = some sA)
    (hB : st.sessions B = some sB) (hBne : B ≠ "") :
    ((switch_session (switch_session st A t now1).1 B t now2).1.topic_sessions t
        = some B)
    ∧ ((switch_session (switch_session st A t now1).1 B t
          now2).1.global_active_session = some B)
    ∧ (((switch_session (switch_session st A t now1).1 B t now2).1.sessions
          B).isSome = true)
    ∧ (get_current_session
          (switch_session (switch_session st A t now1).1 B t now2).1 t
        = (switch_session (switch_session st A t now1).1 B t now2).1.sessions
            B) := by
  have e1 := switch_session_eq st A t now1 sA hA
  have hs1 : (switch_session st A t now1).1.sessions B
      = some (if B = A then { sA with last_active := now1 } else sB) := by
    rw [e1]
    by_cases hBA : B = A
    · subst hBA
      simp [updf]
    · simp [updf, hBA, hB]
  have e2 := switch_session_eq (switch_session st A t now1).1 B t now2 _ hs1
  rw [e2]
  refine ⟨by simp [updf], rfl, by simp [updf], ?_⟩
  simp [get_current_session, updf, hBne]

/-- Claim C7, witness: the theorem at the two-session registry, switching
the topic general from 001 to 002. -/
theorem switch_session_last_wins_witness :
    ((switch_session (switch_session demoState "001" "general" "t1").1
        "002" "general" "t2").1.topic_sessions "general" = some "002")
    ∧ ((switch_session (switch_session demoState "001" "general" "t1").1
        "002" "general" "t2").1.global_active_session = some "002") := by
  have h := switch_session_last_wins demoState "general" "001" "002" "t1" "t2"
    demoSession demoSession2 (by decide) (by decide) (by decide)
  exact ⟨h.1, h.2.1⟩

/-- Claim C9: killing a registered session removes its record and, when
the topic index still points at it, its topic mapping; killing the same
id again is a pure no-op that reports false, changes neither the registry
nor the set of live tmux names, and raises nothing. -/
theorem kill_session_idempotent (st : SMState) (alive : List String)
    (sid : String) (s : Session) (hs : st.sessions sid = some s) :
    ((kill_session st alive sid).2.2 = true)
    ∧ ((kill_session st alive sid).1.sessions sid = none)
    ∧ (∀ t, s.topic = some t → t ≠ "" → st.topic_sessions t = some sid →
        (kill_session st alive sid).1.topic_sessions t = none)
    ∧ ((kill_session (kill_session st alive sid).1
          (kill_session st alive sid).2.1 sid).2.2 = false)
    ∧ ((kill_session (kill_session st alive sid).1
          (kill_session st alive sid).2.1 sid).1
        = (kill_session st alive sid).1)
    ∧ ((kill_session (kill_session st alive sid).1
          (kill_session st alive sid).2.1 sid).2.1
        = (kill_session st alive sid).2.1) := by
  have hdead : ∀ (st2 : SMState) (al : List String), st2.sessions sid = none →
      kill_session st2 al sid = (st2, al, false) := by
    intro st2 al h
    unfold kill_session
    rw [h]
  have h0 : (kill_session st alive sid).2.2 = true := by
    unfold kill_session
    rw [hs]
  have h1 : (kill_session st alive sid).1.sessions sid = none := by
    unfold kill_session
    rw [hs]
    cases htop : s.topic with
    | none => simp [htop, updf]
    | some t =>
      simp only [htop]
      split_ifs <;> simp [updf]
  have h2 : ∀ t, s.topic = some t → t ≠ "" → st.topic_sessions t = some sid →
      (kill_session st alive sid).1.topic_sessions t = none := by
    intro t htop htne hmap
    unfold kill_session
    rw [hs]
    simp only [htop]
    split_ifs with hcond
    · simp [updf]
    · exact absurd ⟨htne, hmap⟩ hcond
  exact ⟨h0, h1, h2, by rw [hdead _ _ h1], by rw [hdead _ _ h1],
    by rw [hdead _ _ h1]⟩

/-- Claim C9, witness: killing session 001 of the two-session registry
twice; the first call erases record and topic mapping, the second reports
false and leaves the state alone. -/
theorem kill_session_idempotent_witness :
    ((kill_session demoState ["claude_001"] "001").2.2 = true)
    ∧ ((kill_session demoState ["claude_001"] "001").1.sessions "001" = none)
    ∧ ((kill_session demoState ["claude_001"] "001").1.topic_sessions
        "general" = none)
    ∧ ((kill_session (kill_session demoState ["claude_001"] "001").1
          (kill_session demoState ["claude_001"] "001").2.1 "001").2.2
        = false) := by
  have h := kill_session_idempotent demoState ["claude_001"] "001"
    demoSession (by decide)
  exact ⟨h.1, h.2.1, h.2.2.1 "general" rfl (by decide) (by decide),
    h.2.2.2.1⟩

/-- Claim C4, counterexample: recreate_tmux_session swallows a failed
tmux new-session call (the CalledProcessError is only printed), so when
creation fails the loaded record stays registered while its handle is
dead: loading one persisted record into a world with no live tmux
session, with creation failing, leaves session 001 registered and its
handle claude_001 absent, contradicting the claim that every loaded
session has a live handle after load completes. -/
theorem load_sessions_dead_handle_counterexample :
    ((load_sessions (fun _ => false) [] [.record demoSession]).sessions
        "001" = some demoSession)
    ∧ demoSession.tmux_session ∉
        ((load_sessions (fun _ => false) []
          [.record demoSession]).tmux.map Prod.fst) := by decide

/-- Helper: the tmux world after a load step over a complete record. -/
theorem load_step_tmux_shape (createOk : String → Bool) (st : LoadState)
    (r : Session) :
    (load_step createOk st (.record r)).tmux
      = (if r.tmux_session ∈ st.tmux.map Prod.fst then st.tmux
         else recreate_tmux_session createOk st.tmux r) := by
  simp only [load_step]
  cases htop : r.topic with
  | none =>
    simp only [htop]
    split_ifs <;> rfl
  | some t =>
    simp only [htop]
    split_ifs <;> rfl

/-- Helper: the sessions map after a load step over a complete record. -/
theorem load_step_sessions_shape (createOk : String → Bool) (st : LoadState)
    (r : Session) :
    (load_step createOk st (.record r)).sessions
      = updf st.sessions r.id (some r) := by
  simp only [load_step]
  cases htop : r.topic with
  | none =>
    simp only [htop]
    split_ifs <;> rfl
  | some t =>
    simp only [htop]
    split_ifs <;> rfl

/-- Helper: one load step preserves the invariant that every registered
record has a live handle, when tmux creation always succeeds. -/
theorem load_step_alive (createOk : String → Bool)
    (hok : ∀ n, createOk n = true) (st : LoadState) (e : DirEntry)
    (hst : ∀ sid s, st.sessions sid = some s →
      s.tmux_session ∈ st.tmux.map Prod.fst) :
    ∀ sid s, (load_step createOk st e).sessions sid = some s →
      s.tmux_session ∈ (load_step createOk st e).tmux.map Prod.fst := by
  cases e with
  | notDir => exact hst
  | noSessionFile => exact hst
  | invalidJson => exact hst
  | missingId => exact hst
  | record r =>
    intro sid s hsess
    rw [load_step_sessions_shape] at hsess
    rw [load_step_tmux_shape]
    by_cases hmem : r.tmux_session ∈ st.tmux.map Prod.fst
    · rw [if_pos hmem]
      by_cases hid : sid = r.id
      · subst hid
        simp only [updf, if_pos rfl] at hsess
        injection hsess with h
        subst h
        exact hmem
      · simp only [updf, if_neg hid] at hsess
        exact hst sid s hsess
    · rw [if_neg hmem]
      simp only [recreate_tmux_session, hok r.tmux_session, if_true,
        List.map_cons]
      by_cases hid : sid = r.id
      · subst hid
        simp only [updf, if_pos rfl] at hsess
        injection hsess with h
        subst h
        exact List.mem_cons_self _ _
      · simp only [updf, if_neg hid] at hsess
        exact List.mem_cons_of_mem _ (hst sid s hsess)

/-- Helper: the liveness invariant survives folding load_step over any
entry list, when tmux creation always succeeds. -/
theorem load_foldl_alive (createOk : String → Bool)
    (hok : ∀ n, createOk n = true) (entries : List DirEntry) :
    ∀ st : LoadState,
      (∀ sid s, st.sessions sid = some s →
        s.tmux_session ∈ st.tmux.map Prod.fst) →
      ∀ sid s, (entries.foldl (load_step createOk) st).sessions sid = some s →
        s.tmux_session
          ∈ (entries.foldl (load_step createOk) st).tmux.map Prod.fst := by
  induction entries with
  | nil =>
    intro st hst
    simpa using hst
  | cons e rest ih =>
    intro st hst
    rw [List.foldl_cons]
    exact ih (load_step createOk st e) (load_step_alive createOk hok st e hst)

/-- Claim C4, amended: the self-healing invariant holds provided every
attempted tmux session creation succeeds: after load_sessions completes,
every registered record has a live handle, a record found dead having
been recreated in place by recreate_tmux_session, which reuses exactly
the recorded handle name and working directory. When a recreation fails,
the failure is printed and swallowed and the record stays registered with
a dead handle, which is what the counterexample exhibits. -/
theorem load_sessions_self_heal (createOk : String → Bool)
    (tmux0 : List (String × String)) (entries : List DirEntry)
    (hok : ∀ n, createOk n = true) :
    (∀ sid s, (load_sessions createOk tmux0 entries).sessions sid = some s →
      s.tmux_session
        ∈ (load_sessions createOk tmux0 entries).tmux.map Prod.fst)
    ∧ (∀ tmux s, recreate_tmux_session createOk tmux s
        = (s.tmux_session, s.working_dir) :: tmux) := by
  constructor
  · unfold load_sessions
    exact load_foldl_alive createOk hok entries _
      (fun sid s h => Option.noConfusion h)
  · intro tmux s
    simp [recreate_tmux_session, hok s.tmux_session]

/-- Claim C4, witness: with tmux creation succeeding, loading the
persisted record of session 001 into a world with no live tmux session
ends with its handle claude_001 alive. -/
theorem load_sessions_self_heal_witness :
    demoSession.tmux_session ∈
      ((load_sessions (fun _ => true) [] [.record demoSession]).tmux.map
        Prod.fst) := by
  have h := load_sessions_self_heal (fun _ => true) [] [.record demoSession]
    (fun _ => rfl)
  exact h.1 "001" demoSession (by decide)
